import Mathlib

/-!
Shallow embedding of `src/reminder_bot.py`, a Telegram reminder bot.

The bot keeps two process-wide dictionaries, `active_reminders`
(user id to scheduled job) and `user_states` (user id to transient setup
state), and registers handlers for the commands and callback selections.
We embed the dictionaries as association lists, a scheduled job as a
`Job` record carrying the arguments the code passes to
`job_queue.run_repeating`, and each handler as a pure function from the
incoming update data and the current `BotState` to an output and a new
`BotState`.  Calling `schedule_removal()` on a job is recorded by adding
the job id to the `cancelled` list.  Python dictionary values of mixed
type (the `data=` dictionaries built at lines 190 and 247) are embedded
as association lists over `PyVal`.
-/

set_option autoImplicit false

/-- PyVal models the Python values stored in a job's `data` dictionary:
every value the code stores there is a string, but a dictionary read of a
missing key must be distinguishable, and the except-branch compares a
value against integer user-id keys, so integers are representable too. -/
inductive PyVal where
  | vstr (s : String)
  | vint (n : Int)
deriving DecidableEq

/-- pvStr models how an f-string renders a value. -/
def pvStr : PyVal → String
  | .vstr s => s
  | .vint n => toString n

/-- lookupKey models Python `d[k]` / `k in d` on a dictionary embedded as
an association list: the first binding of the key, if any. -/
def lookupKey {κ α : Type} [DecidableEq κ] (k : κ) : List (κ × α) → Option α
  | [] => none
  | (a, v) :: t => if k = a then some v else lookupKey k t

/-- eraseKey models Python `del d[k]` (guarded by `k in d`). -/
def eraseKey {κ α : Type} [DecidableEq κ] (k : κ) (l : List (κ × α)) : List (κ × α) :=
  l.filter (fun p => decide (p.1 ≠ k))

/-- setKey models Python `d[k] = v`. -/
def setKey {κ α : Type} [DecidableEq κ] (k : κ) (v : α) (l : List (κ × α)) : List (κ × α) :=
  (k, v) :: eraseKey k l

/-- pyStrip models Python `str.strip()`: drop leading and trailing
whitespace characters. -/
def pyStrip (s : String) : String :=
  ⟨((s.data.dropWhile Char.isWhitespace).reverse.dropWhile Char.isWhitespace).reverse⟩

/-- pyStartsWith models Python `str.startswith(pre)`. -/
def pyStartsWith (s pre : String) : Bool :=
  decide (s.data.take pre.data.length = pre.data)

/-- removeAllAux removes every occurrence of `pat` from the character
list, scanning left to right; `fuel` bounds the recursion and is always
instantiated with the length of the list. -/
def removeAllAux (pat : List Char) : Nat → List Char → List Char
  | _, [] => []
  | 0, l => l
  | fuel + 1, c :: rest =>
      if pat ≠ [] ∧ (c :: rest).take pat.length = pat then
        removeAllAux pat fuel ((c :: rest).drop pat.length)
      else
        c :: removeAllAux pat fuel rest

/-- pyReplace models Python `s.replace(pat, "")`: remove every
occurrence of `pat` from `s` (the code only ever replaces with the empty
string, at lines 150 and 155). -/
def pyReplace (s pat : String) : String :=
  ⟨removeAllAux pat.data s.data.length s.data⟩

/-- pyUpper models Python `str.upper()` for the ASCII strings used here. -/
def pyUpper (s : String) : String :=
  ⟨s.data.map Char.toUpper⟩

/-- DEFAULT_REMINDER_MESSAGES: the fixed pool of five motivational
templates (lines 26 to 36). -/
def DEFAULT_REMINDER_MESSAGES : List String :=
  [ "⏰ **Friendly Reminder!** ⏰\n\nDon\x27t forget to take a break and stretch! Your productivity will thank you. 💪"
  , "🔔 **Reminder Alert!** 🔔\n\nTime to check your tasks and stay hydrated! 🚰 Remember: small consistent actions lead to big results. 🌟"
  , "📢 **Quick Update Reminder!** 📢\n\nTake a moment to review your progress. Celebrate small wins! 🎉 You\x27re doing great!"
  , "🌅 **Mindfulness Reminder** 🌅\n\nPause for a minute. Breathe deeply. Reset your focus. You\x27ve got this! ✨"
  , "🚀 **Productivity Boost Reminder!** 🚀\n\nTime to tackle that next task! Remember: progress over perfection. 📈" ]

/-- TIME_FRAMES: recognized interval codes and their minutes (lines 39 to 44). -/
def TIME_FRAMES : List (String × Nat) :=
  [("1m", 1), ("5m", 5), ("30m", 30), ("1h", 60)]

/-- UserState embeds the `user_states[user_id]` dictionary
`{"time_frame": ..., "step": ...}`. -/
structure UserState where
  time_frame : String
  step : String
deriving DecidableEq

/-- Job embeds the object returned by `job_queue.run_repeating`: the id
is a freshly allocated handle, `chat_id` and `user_id` are the keyword
arguments of the same names, `interval` and `first` are in seconds, and
`data` is the dictionary passed as `data=`. -/
structure Job where
  id : Nat
  chat_id : Int
  user_id : Int
  interval : Nat
  first : Nat
  data : List (String × PyVal)
deriving DecidableEq

/-- jobDataRandom is the `data` dictionary built at line 190. -/
def jobDataRandom (tf : String) : List (String × PyVal) :=
  [("time_frame", .vstr tf), ("type", .vstr "random")]

/-- jobDataCustom is the `data` dictionary built at lines 247 to 251. -/
def jobDataCustom (tf msg : String) : List (String × PyVal) :=
  [("time_frame", .vstr tf), ("message", .vstr msg), ("type", .vstr "custom")]

/-- dictGet models a Python dictionary read `d[k]` on a job data
dictionary, returning `none` where Python would raise `KeyError`. -/
def dictGet (k : String) (d : List (String × PyVal)) : Option PyVal :=
  lookupKey k d

/-- BotState embeds the process-wide mutable state: the two global
dictionaries (lines 47 and 48) together with the job queue, embedded as
the list of created jobs, the ids on which `schedule_removal` was
called, and a fresh-id counter. -/
structure BotState where
  active_reminders : List (Int × Job)
  user_states : List (Int × UserState)
  jobs : List Job
  cancelled : List Nat
  next_id : Nat
deriving DecidableEq

/-- HOut is the user-visible outcome of one handler invocation: a reply
or message edit with the given text, silence, or an uncaught `KeyError`
on the given key. -/
inductive HOut where
  | reply (t : String)
  | silent
  | keyError (k : String)
deriving DecidableEq

/-- pluralS models the Python expression
`'s' if minutes > 1 else ''`. -/
def pluralS (n : Nat) : String :=
  if n > 1 then "s" else ""

/-- tooLongText is the rejection reply at lines 229 to 232. -/
def tooLongText : String :=
  "❌ Message is too long! Please keep it under 200 characters."

/-- randomMenuText is the message edit at lines 141 to 145. -/
def randomMenuText : String :=
  "🎲 **Random Reminders Selected!**\n\nNow choose how often you want to receive random motivational reminders:"

/-- promptText is the message edit at lines 164 to 174. -/
def promptText (tf : String) : String :=
  "⏰ **" ++ pyUpper tf ++ " Reminder Selected!** ⏰\n\n" ++
  "📝 *Now please send me the reminder message you\x27d like to receive.*\n\n" ++
  "For example:\n" ++
  "• \"Drink water\" 💧\n" ++
  "• \"Check progress on project\" 📊\n" ++
  "• \"Take a break and stretch\" 🧘\n" ++
  "• \"Review today\x27s tasks\" ✅"

/-- randomConfirmText is the confirmation f-string at lines 199 to 207. -/
def randomConfirmText (tf : String) (minutes : Nat) : String :=
  "\n🎲 **Random Reminder Set!** 🎲\n\n" ++
  "I\x27ll send you random motivational reminders every **" ++ tf ++
  "** starting in " ++ toString minutes ++ " minute" ++ pluralS minutes ++ ".\n\n" ++
  "Each reminder will be a different inspiring message to keep you motivated! ✨\n\n" ++
  "You can cancel anytime using /cancel.\n    "

/-- customConfirmText is the confirmation f-string at lines 259 to 268. -/
def customConfirmText (tf msg : String) (minutes : Nat) : String :=
  "\n✅ **Custom Reminder Set!** ✅\n\n" ++
  "⏰ **Frequency:** Every " ++ tf ++ "\n" ++
  "📝 **Message:** \"" ++ msg ++ "\"\n\n" ++
  "I\x27ll start reminding you in " ++ toString minutes ++ " minute" ++ pluralS minutes ++ ".\n\n" ++
  "You can cancel anytime using /cancel.\n    "

/-- cancelExisting embeds the snippet
`if user_id in active_reminders: active_reminders[user_id].schedule_removal()`
(lines 179 to 180 and 236 to 237): mark the referenced job cancelled but
leave the dictionary entry in place. -/
def cancelExisting (u : Int) (s : BotState) : BotState :=
  match lookupKey u s.active_reminders with
  | some j => { s with cancelled := j.id :: s.cancelled }
  | none => s

/-- setup_random_reminder embeds lines 176 to 213: cancel any existing
job, read `TIME_FRAMES[time_frame]` (a `KeyError` when the frame is
unknown), create the repeating job with `interval = first =
minutes * 60` and the random data dictionary, store it in
`active_reminders`, drop any pending `user_states` entry, and confirm. -/
def setup_random_reminder (u c : Int) (tf : String) (s : BotState) : HOut × BotState :=
  let s1 := cancelExisting u s
  match lookupKey tf TIME_FRAMES with
  | none => (.keyError tf, s1)
  | some minutes =>
      let j : Job :=
        { id := s1.next_id, chat_id := c, user_id := u
        , interval := minutes * 60, first := minutes * 60
        , data := jobDataRandom tf }
      (.reply (randomConfirmText tf minutes),
        { s1 with
            jobs := j :: s1.jobs
          , next_id := s1.next_id + 1
          , active_reminders := setKey u j s1.active_reminders
          , user_states := eraseKey u s1.user_states })

/-- handle_reminder_selection embeds lines 97 to 174: dispatch on the
callback data, in the source's order of checks. -/
def handle_reminder_selection (u c : Int) (qdata : String) (s : BotState) : HOut × BotState :=
  if qdata = "cancel_reminder" then
    match lookupKey u s.active_reminders with
    | some j =>
        (.reply "✅ Reminder cancelled!",
          { s with
              cancelled := j.id :: s.cancelled
            , active_reminders := eraseKey u s.active_reminders })
    | none => (.reply "❌ No active reminder found!", s)
  else if qdata = "cancel_setup" then
    (.reply "❌ Reminder setup cancelled!",
      { s with user_states := eraseKey u s.user_states })
  else if qdata = "random_reminders" then
    (.reply randomMenuText,
      { s with user_states := setKey u ⟨"random", "time_selected"⟩ s.user_states })
  else if pyStartsWith qdata "random_" then
    setup_random_reminder u c (pyReplace qdata "random_") s
  else
    let tf := pyReplace qdata "reminder_"
    match lookupKey tf TIME_FRAMES with
    | some _ =>
        (.reply (promptText tf),
          { s with user_states := setKey u ⟨tf, "awaiting_message"⟩ s.user_states })
    | none => (.silent, s)

/-- routesSelection embeds the `CallbackQueryHandler` pattern
`^reminder_|^cancel_|^random_` at line 407. -/
def routesSelection (d : String) : Bool :=
  pyStartsWith d "reminder_" || pyStartsWith d "cancel_" || pyStartsWith d "random_"

/-- dispatch_selection: a callback selection reaches
`handle_reminder_selection` only when its data matches the registered
pattern; otherwise the dispatcher drops it. -/
def dispatch_selection (u c : Int) (d : String) (s : BotState) : HOut × BotState :=
  if routesSelection d then handle_reminder_selection u c d s else (.silent, s)

/-- handle_message_input embeds lines 215 to 274: ignore text unless the
user is awaiting a message, strip it, reject stripped text longer than
200 characters, otherwise cancel any existing job and activate the
custom reminder. -/
def handle_message_input (u c : Int) (text : String) (s : BotState) : HOut × BotState :=
  match lookupKey u s.user_states with
  | none => (.silent, s)
  | some st =>
    if st.step ≠ "awaiting_message" then (.silent, s)
    else
      let user_message := pyStrip text
      let tf := st.time_frame
      if user_message.length > 200 then
        (.reply tooLongText, s)
      else
        let s1 := cancelExisting u s
        match lookupKey tf TIME_FRAMES with
        | none => (.keyError tf, s1)
        | some minutes =>
            let j : Job :=
              { id := s1.next_id, chat_id := c, user_id := u
              , interval := minutes * 60, first := minutes * 60
              , data := jobDataCustom tf user_message }
            (.reply (customConfirmText tf user_message minutes),
              { s1 with
                  jobs := j :: s1.jobs
                , next_id := s1.next_id + 1
                , active_reminders := setKey u j s1.active_reminders
                , user_states := eraseKey u s1.user_states })

/-- cancel embeds the `/cancel` handler at lines 331 to 344: first drop
any pending setup state, then stop and remove the active job if one
exists, else report that none was found. -/
def cancel (u : Int) (s : BotState) : HOut × BotState :=
  let s1 := { s with user_states := eraseKey u s.user_states }
  match lookupKey u s1.active_reminders with
  | some j =>
      (.reply "✅ Reminder cancelled!",
        { s1 with
            cancelled := j.id :: s1.cancelled
          , active_reminders := eraseKey u s1.active_reminders })
  | none => (.reply "❌ No active reminder found!", s1)

/-- StatusOut abstracts the three reply branches of the `/status`
handler, carrying the fields interpolated into each reply, plus the
`KeyError` outcome of a failing dictionary read. -/
inductive StatusOut where
  | customActive (tf msg : String)
  | randomActive (tf : String)
  | noActive
  | keyError (k : String)
deriving DecidableEq

/-- status embeds lines 346 to 363: look up the user's job, read
`data["time_frame"]`, read `data.get("type", "custom")`, and report the
custom or random status, or that no reminder is active. -/
def status (u : Int) (s : BotState) : StatusOut :=
  match lookupKey u s.active_reminders with
  | none => .noActive
  | some j =>
    match dictGet "time_frame" j.data with
    | none => .keyError "time_frame"
    | some tfV =>
      let rt := (dictGet "type" j.data).getD (.vstr "custom")
      if rt = .vstr "custom" then
        match dictGet "message" j.data with
        | none => .keyError "message"
        | some msgV => .customActive (pvStr tfV) (pvStr msgV)
      else .randomActive (pvStr tfV)

/-- FireOut is the outcome of one firing of a scheduled job callback:
the message was sent to a chat, delivery failed and the user's entry was
removed, delivery failed without cleanup, or an uncaught `KeyError`. -/
inductive FireOut where
  | sent (chat : Int) (body : String)
  | failedRemoved
  | failedKept
  | keyError (k : String)
deriving DecidableEq

/-- customBody is the reminder f-string at lines 284 to 290. -/
def customBody (msg tf : String) : String :=
  "\n🔔 **Reminder!** 🔔\n\n" ++ msg ++ "\n\n⏱️ Frequency: " ++ tf ++ "\n    "

/-- randomBody is the full message built at line 316. -/
def randomBody (msg tf : String) : String :=
  msg ++ "\n\n⏱️ Random reminder interval: " ++ tf

/-- keyOfPv: a job-data value used as a key into the integer-keyed
`active_reminders` dictionary matches only when it is an integer. -/
def keyOfPv : PyVal → Option Int
  | .vint n => some n
  | .vstr _ => none

/-- fireCleanup embeds the except branch shared by both callbacks
(lines 298 to 303 and 324 to 329): on delivery failure, if the user id
read from the data dictionary has an entry in `active_reminders`, cancel
that job and delete the entry. -/
def fireCleanup (uidV : PyVal) (s : BotState) : FireOut × BotState :=
  match keyOfPv uidV with
  | some uid =>
    match lookupKey uid s.active_reminders with
    | some jr =>
        (.failedRemoved,
          { s with
              cancelled := jr.id :: s.cancelled
            , active_reminders := eraseKey uid s.active_reminders })
    | none => (.failedKept, s)
  | none => (.failedKept, s)

/-- send_custom_reminder embeds lines 276 to 303: read `chat_id`, then
`job.data["user_id"]`, `job.data["time_frame"]` and
`job.data["message"]` (each a potential `KeyError`, raised before the
try block), build the wrapped body, and attempt delivery; `sendOk`
abstracts whether `bot.send_message` succeeds. -/
def send_custom_reminder (sendOk : Bool) (j : Job) (s : BotState) : FireOut × BotState :=
  match dictGet "user_id" j.data with
  | none => (.keyError "user_id", s)
  | some uidV =>
    match dictGet "time_frame" j.data with
    | none => (.keyError "time_frame", s)
    | some tfV =>
      match dictGet "message" j.data with
      | none => (.keyError "message", s)
      | some msgV =>
        let body := customBody (pvStr msgV) (pvStr tfV)
        if sendOk then (.sent j.chat_id body, s)
        else fireCleanup uidV s

/-- send_random_reminder embeds lines 305 to 329: read `chat_id`, then
`job.data["user_id"]` and `job.data["time_frame"]`, pick the template
indexed by `choice % 5` (modelling `random.choice` over the pool of
five), and attempt delivery. -/
def send_random_reminder (sendOk : Bool) (choice : Nat) (j : Job) (s : BotState) :
    FireOut × BotState :=
  match dictGet "user_id" j.data with
  | none => (.keyError "user_id", s)
  | some uidV =>
    match dictGet "time_frame" j.data with
    | none => (.keyError "time_frame", s)
    | some tfV =>
      let msg := DEFAULT_REMINDER_MESSAGES.getD (choice % 5) ""
      let body := randomBody msg (pvStr tfV)
      if sendOk then (.sent j.chat_id body, s)
      else fireCleanup uidV s

/-- fireTime models the scheduling semantics of
`job_queue.run_repeating(callback, interval=i, first=f, ...)`: the k-th
firing occurs `f + k * i` seconds after activation. -/
def fireTime (j : Job) (k : Nat) : Nat :=
  j.first + k * j.interval

/-- activeJobs: the jobs created for a user and not yet cancelled, that
is, the user's live timers. -/
def activeJobs (s : BotState) (u : Int) : List Job :=
  s.jobs.filter (fun j => decide (j.user_id = u ∧ j.id ∉ s.cancelled))

/-- ReminderInv: the reachable-state invariant tying the
`active_reminders` dictionary to the job queue: created jobs and
cancelled ids are below the fresh counter, every dictionary entry points
at the user's unique live timer, and a user absent from the dictionary
has no live timer. -/
def ReminderInv (s : BotState) : Prop :=
  (∀ j ∈ s.jobs, j.id < s.next_id) ∧
  (∀ i ∈ s.cancelled, i < s.next_id) ∧
  (∀ p ∈ s.active_reminders, activeJobs s p.1 = [p.2]) ∧
  (∀ j ∈ s.jobs, lookupKey j.user_id s.active_reminders = none → j.id ∈ s.cancelled)

instance (s : BotState) : Decidable (ReminderInv s) := by
  unfold ReminderInv; infer_instance

/-- sEmpty: the state at process start, both dictionaries empty. -/
def sEmpty : BotState := ⟨[], [], [], [], 0⟩

/-- s9a: the state after user 1 (chat 5) presses the `5m` interval
button. -/
def s9a : BotState := (dispatch_selection 1 5 "reminder_5m" sEmpty).2

/-- s9b: the state after user 1 then sends the text `Drink water`. -/
def s9b : BotState := (handle_message_input 1 5 "Drink water" s9a).2

/-- jC9: the job created by that scenario. -/
def jC9 : Job := ⟨0, 5, 1, 300, 300, jobDataCustom "5m" "Drink water"⟩

/-- jRand: the job created when user 2 in chat 6 picks hourly random
reminders. -/
def jRand : Job := ⟨0, 6, 2, 3600, 3600, jobDataRandom "1h"⟩

/-- sRandExample: a state holding one active random reminder for user 2
in chat 6 at the one-hour interval. -/
def sRandExample : BotState := ⟨[(2, jRand)], [], [jRand], [], 1⟩

/-- t201: a 201-character submission, 200 letters then a space. -/
def t201 : String := ⟨List.replicate 200 'a' ++ [' ']⟩

/-- s5: user 1 in the awaiting-message phase for the `5m` frame. -/
def s5 : BotState := ⟨[], [(1, ⟨"5m", "awaiting_message"⟩)], [], [], 0⟩

/-- jW4: an active random job for user 1 in chat 9. -/
def jW4 : Job := ⟨0, 9, 1, 60, 60, jobDataRandom "1m"⟩

/-- s4: a state where user 1 has an active reminder. -/
def s4 : BotState := ⟨[(1, jW4)], [], [jW4], [], 1⟩

/-- s6: user 1 has a pending setup state but no active reminder. -/
def s6 : BotState := ⟨[], [(1, ⟨"5m", "awaiting_message"⟩)], [], [], 0⟩

/-- jW7: an active random job for user 7 in chat 9. -/
def jW7 : Job := ⟨0, 9, 7, 60, 60, jobDataRandom "1m"⟩

/-- sW: user 7 has an active reminder and is also awaiting a message. -/
def sW : BotState := ⟨[(7, jW7)], [(7, ⟨"5m", "awaiting_message"⟩)], [jW7], [], 1⟩

/-- A successful lookup exhibits a binding in the association list. -/
theorem lookupKey_mem {κ α : Type} [DecidableEq κ] {k : κ} {v : α}
    {l : List (κ × α)} (h : lookupKey k l = some v) : (k, v) ∈ l := by
  induction l with
  | nil => simp [lookupKey] at h
  | cons p t ih =>
    obtain ⟨a, b⟩ := p
    rw [lookupKey] at h
    by_cases hk : k = a
    · rw [if_pos hk] at h
      injection h with hv
      subst hk; subst hv
      exact List.mem_cons_self _ _
    · rw [if_neg hk] at h
      exact List.mem_cons_of_mem _ (ih h)

/-- Writing a key makes it readable. -/
theorem lookupKey_setKey_self {κ α : Type} [DecidableEq κ] (k : κ) (v : α)
    (l : List (κ × α)) : lookupKey k (setKey k v l) = some v := by
  simp [setKey, lookupKey]

/-- Deleting a key makes it unreadable. -/
theorem lookupKey_eraseKey_self {κ α : Type} [DecidableEq κ] (k : κ)
    (l : List (κ × α)) : lookupKey k (eraseKey k l) = none := by
  induction l with
  | nil => rfl
  | cons p t ih =>
    obtain ⟨a, b⟩ := p
    by_cases hk : a = k
    · simpa [eraseKey, hk] using ih
    · have hne : ¬ k = a := fun h => hk h.symm
      simpa [eraseKey, hk, lookupKey, hne] using ih

/-- cancelExisting only touches the cancelled list. -/
theorem cancelExisting_user_states (u : Int) (s : BotState) :
    (cancelExisting u s).user_states = s.user_states := by
  unfold cancelExisting
  cases lookupKey u s.active_reminders <;> rfl

theorem cancelExisting_active (u : Int) (s : BotState) :
    (cancelExisting u s).active_reminders = s.active_reminders := by
  unfold cancelExisting
  cases lookupKey u s.active_reminders <;> rfl

theorem cancelExisting_jobs (u : Int) (s : BotState) :
    (cancelExisting u s).jobs = s.jobs := by
  unfold cancelExisting
  cases lookupKey u s.active_reminders <;> rfl

theorem cancelExisting_next_id (u : Int) (s : BotState) :
    (cancelExisting u s).next_id = s.next_id := by
  unfold cancelExisting
  cases lookupKey u s.active_reminders <;> rfl

/-- Replacing a user's only live job with a fresh one leaves exactly the
fresh job live for that user. -/
theorem activeJobs_replace (jobs : List Job) (canc : List Nat) (nid : Nat) (u : Int)
    (jOld jNew : Job)
    (hfresh : ∀ j ∈ jobs, j.id < nid)
    (hcanc : ∀ i ∈ canc, i < nid)
    (hone : jobs.filter (fun j => decide (j.user_id = u ∧ j.id ∉ canc)) = [jOld])
    (hu : jNew.user_id = u) (hid : jNew.id = nid) :
    (jNew :: jobs).filter
      (fun j => decide (j.user_id = u ∧ j.id ∉ jOld.id :: canc)) = [jNew] := by
  have hOldMem : jOld ∈ jobs := by
    have hm : jOld ∈ jobs.filter (fun j => decide (j.user_id = u ∧ j.id ∉ canc)) := by
      rw [hone]; exact List.mem_singleton_self _
    exact (List.mem_filter.mp hm).1
  have hOldLt : jOld.id < nid := hfresh jOld hOldMem
  have hpass : decide (jNew.user_id = u ∧ jNew.id ∉ jOld.id :: canc) = true := by
    simp only [decide_eq_true_eq]
    refine ⟨hu, fun hmem => ?_⟩
    rcases List.mem_cons.mp hmem with h1 | h2
    · rw [hid] at h1; omega
    · have := hcanc _ h2; omega
  rw [List.filter_cons, if_pos hpass]
  have hnil : jobs.filter
      (fun j => decide (j.user_id = u ∧ j.id ∉ jOld.id :: canc)) = [] := by
    rw [List.filter_eq_nil_iff]
    intro j hj hpj
    rw [decide_eq_true_eq] at hpj
    obtain ⟨hju, hjn⟩ := hpj
    have hjc : j.id ∉ canc := fun hc => hjn (List.mem_cons_of_mem _ hc)
    have hjf : j ∈ jobs.filter (fun j => decide (j.user_id = u ∧ j.id ∉ canc)) :=
      List.mem_filter.mpr ⟨hj, by simp [hju, hjc]⟩
    rw [hone] at hjf
    have : j = jOld := List.mem_singleton.mp hjf
    subst this
    exact hjn (List.mem_cons_self _ _)
  rw [hnil]

/-- Field reads on the custom job data dictionary. -/
theorem dictGet_custom_time_frame (tf msg : String) :
    dictGet "time_frame" (jobDataCustom tf msg) = some (.vstr tf) := rfl

theorem dictGet_custom_type (tf msg : String) :
    dictGet "type" (jobDataCustom tf msg) = some (.vstr "custom") := rfl

theorem dictGet_custom_message (tf msg : String) :
    dictGet "message" (jobDataCustom tf msg) = some (.vstr msg) := rfl

/-- Field reads on the random job data dictionary. -/
theorem dictGet_random_time_frame (tf : String) :
    dictGet "time_frame" (jobDataRandom tf) = some (.vstr tf) := rfl

theorem dictGet_random_type (tf : String) :
    dictGet "type" (jobDataRandom tf) = some (.vstr "random") := rfl

/-- Stripping an all-whitespace string yields the empty string. -/
theorem pyStrip_all_whitespace (txt : String)
    (h : txt.data.all Char.isWhitespace = true) : pyStrip txt = "" := by
  unfold pyStrip
  have hd : txt.data.dropWhile Char.isWhitespace = [] := by
    rw [List.dropWhile_eq_nil_iff]
    intro x hx
    exact (List.all_eq_true.mp h) x hx
  rw [hd]
  rfl

/-- C1: the claim says every firing of a scheduled reminder resolves a
message body and then attempts delivery to the stored chat id.  The code
violates this: both callbacks first read `job.data["user_id"]`
(reminder_bot.py lines 280 and 309), but the activation paths pass
`user_id` as a keyword argument of `run_repeating` and never store it in
the `data` dictionary (lines 190 and 247 to 251), so every firing raises
`KeyError` before any body is composed or any delivery attempted,
whether or not the chat is reachable. -/
theorem C1_firing_raises_before_delivery :
    dictGet "user_id" jC9.data = none ∧
    dictGet "user_id" jRand.data = none ∧
    (send_custom_reminder true jC9 s9b).1 = FireOut.keyError "user_id" ∧
    (send_custom_reminder false jC9 s9b).1 = FireOut.keyError "user_id" ∧
    (send_random_reminder true 0 jRand sRandExample).1 = FireOut.keyError "user_id" ∧
    (send_random_reminder false 3 jRand sRandExample).1 = FireOut.keyError "user_id" := by
  decide

/-- C2: the claim says a failed scheduled delivery stops the timer and
removes the user's entry, so a later status query reports no active
reminder.  In the code the `KeyError` on `job.data["user_id"]` is raised
before the `try` block that attempts delivery, so the except-branch
cleanup never runs: after a firing with an unreachable chat the state is
unchanged, the entry is still present and the status query still reports
the reminder active. -/
theorem C2_failed_delivery_entry_kept :
    (send_custom_reminder false jC9 s9b).2 = s9b ∧
    (send_custom_reminder false jC9 s9b).1 ≠ FireOut.failedRemoved ∧
    lookupKey 1 ((send_custom_reminder false jC9 s9b).2).active_reminders = some jC9 ∧
    status 1 (send_custom_reminder false jC9 s9b).2 =
      StatusOut.customActive "5m" "Drink water" ∧
    (send_random_reminder false 0 jRand sRandExample).2 = sRandExample ∧
    status 2 (send_random_reminder false 0 jRand sRandExample).2 =
      StatusOut.randomActive "1h" := by
  decide

/-- C3: activating a new reminder (by completing custom-message setup or
by selecting a random-reminder interval) while the user already has an
active timer first cancels the previous timer and leaves exactly one
live timer for that user, the newly created one. -/
theorem C3_replace_semantics (s : BotState) (u c : Int) (tf : String) (m : Nat) (jOld : Job)
    (hInv : ReminderInv s)
    (hOld : lookupKey u s.active_reminders = some jOld)
    (hTf : lookupKey tf TIME_FRAMES = some m) :
    (jOld.id ∈ ((setup_random_reminder u c tf s).2).cancelled ∧
      activeJobs ((setup_random_reminder u c tf s).2) u =
        [{ id := s.next_id, chat_id := c, user_id := u
         , interval := m * 60, first := m * 60, data := jobDataRandom tf }]) ∧
    (∀ txt st, lookupKey u s.user_states = some st → st.step = "awaiting_message" →
      st.time_frame = tf → (pyStrip txt).length ≤ 200 →
      jOld.id ∈ ((handle_message_input u c txt s).2).cancelled ∧
      activeJobs ((handle_message_input u c txt s).2) u =
        [{ id := s.next_id, chat_id := c, user_id := u
         , interval := m * 60, first := m * 60, data := jobDataCustom tf (pyStrip txt) }]) := by
  obtain ⟨hfresh, hcanc, hactive, _⟩ := hInv
  have hmem : (u, jOld) ∈ s.active_reminders := lookupKey_mem hOld
  have hone : List.filter (fun j => decide (j.user_id = u ∧ j.id ∉ s.cancelled)) s.jobs
      = [jOld] := hactive _ hmem
  constructor
  · unfold setup_random_reminder
    rw [show cancelExisting u s = { s with cancelled := jOld.id :: s.cancelled } by
      unfold cancelExisting; rw [hOld]]
    rw [hTf]
    refine ⟨List.mem_cons_self _ _, ?_⟩
    unfold activeJobs
    exact activeJobs_replace s.jobs s.cancelled s.next_id u jOld _ hfresh hcanc hone rfl rfl
  · intro txt st hst hstep htf hlen
    unfold handle_message_input
    rw [hst]
    dsimp only
    rw [hstep]
    rw [if_neg (by simp)]
    rw [if_neg (Nat.not_lt.mpr hlen)]
    rw [show cancelExisting u s = { s with cancelled := jOld.id :: s.cancelled } by
      unfold cancelExisting; rw [hOld]]
    rw [htf, hTf]
    refine ⟨List.mem_cons_self _ _, ?_⟩
    unfold activeJobs
    exact activeJobs_replace s.jobs s.cancelled s.next_id u jOld _ hfresh hcanc hone rfl rfl

/-- Witness for C3 at the concrete state `sW`, where user 7 already has
the active job `jW7` and is awaiting a message for the `5m` frame. -/
theorem C3_replace_semantics_witness :
    ReminderInv sW ∧
    lookupKey 7 sW.active_reminders = some jW7 ∧
    lookupKey "5m" TIME_FRAMES = some 5 ∧
    (jW7.id ∈ ((setup_random_reminder 7 9 "5m" sW).2).cancelled ∧
      activeJobs ((setup_random_reminder 7 9 "5m" sW).2) 7 =
        [⟨1, 9, 7, 300, 300, jobDataRandom "5m"⟩]) ∧
    (jW7.id ∈ ((handle_message_input 7 9 "hi" sW).2).cancelled ∧
      activeJobs ((handle_message_input 7 9 "hi" sW).2) 7 =
        [⟨1, 9, 7, 300, 300, jobDataCustom "5m" "hi"⟩]) := by
  have h := C3_replace_semantics sW 7 9 "5m" 5 jW7 (by decide) (by decide) (by decide)
  exact ⟨by decide, by decide, by decide, h.1,
    h.2 "hi" ⟨"5m", "awaiting_message"⟩ (by decide) rfl rfl (by decide)⟩

/-- C4 counterexample: the selection code `random_2m` matches the
registered callback pattern but carries an unrecognized interval; the
claim says it is ignored silently with no state change, yet the handler
reaches `TIME_FRAMES[time_frame]` and raises `KeyError`, after having
already cancelled the user's existing timer. -/
theorem C4_counterexample :
    routesSelection "random_2m" = true ∧
    lookupKey "2m" TIME_FRAMES = none ∧
    (dispatch_selection 1 9 "random_2m" s4).1 = HOut.keyError "2m" ∧
    (dispatch_selection 1 9 "random_2m" s4).2 ≠ s4 ∧
    (dispatch_selection 1 9 "random_2m" s4).2.cancelled = [0] := by
  decide

/-- C4 (amended): a selection whose data does not match the registered
pattern, or whose code is unknown and not of the form `random_X`, is
ignored silently with no exception and no state change; but an unknown
interval under the `random_` prefix raises `KeyError` instead, after
cancelling the user's existing timer if one exists. -/
theorem C4_unknown_selection (u c : Int) (d : String) (s : BotState) :
    (routesSelection d = false → dispatch_selection u c d s = (HOut.silent, s)) ∧
    (d ≠ "cancel_reminder" → d ≠ "cancel_setup" → d ≠ "random_reminders" →
      pyStartsWith d "random_" = false →
      lookupKey (pyReplace d "reminder_") TIME_FRAMES = none →
      dispatch_selection u c d s = (HOut.silent, s)) ∧
    (pyStartsWith d "random_" = true → d ≠ "random_reminders" →
      lookupKey (pyReplace d "random_") TIME_FRAMES = none →
      dispatch_selection u c d s =
        (HOut.keyError (pyReplace d "random_"), cancelExisting u s)) := by
  refine ⟨?_, ?_, ?_⟩
  · intro h
    unfold dispatch_selection
    rw [h]
    rfl
  · intro h1 h2 h3 h4 h5
    unfold dispatch_selection
    by_cases hr : routesSelection d
    · rw [if_pos hr]
      unfold handle_reminder_selection
      rw [if_neg h1, if_neg h2, if_neg h3, h4]
      rw [if_neg (by decide : ¬ (false = true))]
      dsimp only
      rw [h5]
    · rw [if_neg hr]
  · intro hstart hnr hlk
    have h1 : d ≠ "cancel_reminder" := by
      intro h
      rw [h] at hstart
      exact absurd hstart (by decide)
    have h2 : d ≠ "cancel_setup" := by
      intro h
      rw [h] at hstart
      exact absurd hstart (by decide)
    have hr : routesSelection d = true := by
      unfold routesSelection
      rw [hstart, Bool.or_true]
    unfold dispatch_selection
    rw [hr]
    rw [if_pos rfl]
    unfold handle_reminder_selection
    rw [if_neg h1, if_neg h2, if_neg hnr, hstart]
    rw [if_pos rfl]
    unfold setup_random_reminder
    rw [hlk]

/-- Witness for C4 (amended), exercising the silent branch on the
unknown code `reminder_2m` and the `KeyError` branch on `random_2m`. -/
theorem C4_unknown_selection_witness :
    ("reminder_2m" ≠ "cancel_reminder" ∧ pyStartsWith "reminder_2m" "random_" = false ∧
      lookupKey (pyReplace "reminder_2m" "reminder_") TIME_FRAMES = none ∧
      dispatch_selection 1 9 "reminder_2m" s4 = (HOut.silent, s4)) ∧
    (pyStartsWith "random_2m" "random_" = true ∧
      lookupKey (pyReplace "random_2m" "random_") TIME_FRAMES = none ∧
      dispatch_selection 1 9 "random_2m" s4 =
        (HOut.keyError (pyReplace "random_2m" "random_"), cancelExisting 1 s4)) := by
  have hA := (C4_unknown_selection 1 9 "reminder_2m" s4).2.1
    (by decide) (by decide) (by decide) (by decide) (by decide)
  have hB := (C4_unknown_selection 1 9 "random_2m" s4).2.2
    (by decide) (by decide) (by decide)
  exact ⟨⟨by decide, by decide, by decide, hA⟩, ⟨by decide, by decide, hB⟩⟩

set_option maxRecDepth 4000 in
/-- C5 counterexample: the claim says submitted text of length 201 or
more is rejected.  The submission `t201` has raw length 201 (200 letters
and a trailing space), but the handler strips before measuring, so it is
accepted: the reminder is activated with the 200-letter stripped text
stored, and the setup state is consumed rather than preserved. -/
theorem C5_counterexample :
    t201.length = 201 ∧
    lookupKey 1 s5.user_states = some ⟨"5m", "awaiting_message"⟩ ∧
    (handle_message_input 1 5 t201 s5).1 ≠ HOut.reply tooLongText ∧
    lookupKey 1 ((handle_message_input 1 5 t201 s5).2).active_reminders =
      some ⟨0, 5, 1, 300, 300, jobDataCustom "5m" ⟨List.replicate 200 'a'⟩⟩ ∧
    lookupKey 1 ((handle_message_input 1 5 t201 s5).2).user_states = none := by
  decide

/-- C5 (amended): in the awaiting-message phase the 200-character limit
is applied to the submitted text after stripping leading and trailing
whitespace: stripped length above 200 is rejected with a re-prompt and
the whole state, the SetupState included, is left unchanged; stripped
length at most 200 is accepted and activates the reminder with the
stripped text stored. -/
theorem C5_stripped_length_limit (s : BotState) (u c : Int) (txt tf : String) (m : Nat)
    (st : UserState)
    (hst : lookupKey u s.user_states = some st)
    (hstep : st.step = "awaiting_message")
    (htf : st.time_frame = tf)
    (hm : lookupKey tf TIME_FRAMES = some m) :
    ((pyStrip txt).length > 200 →
      handle_message_input u c txt s = (HOut.reply tooLongText, s)) ∧
    ((pyStrip txt).length ≤ 200 →
      (handle_message_input u c txt s).1 =
        HOut.reply (customConfirmText tf (pyStrip txt) m) ∧
      lookupKey u ((handle_message_input u c txt s).2).active_reminders =
        some { id := s.next_id, chat_id := c, user_id := u
             , interval := m * 60, first := m * 60
             , data := jobDataCustom tf (pyStrip txt) }) := by
  constructor
  · intro hl
    unfold handle_message_input
    rw [hst]
    dsimp only
    rw [hstep]
    rw [if_neg (by simp)]
    rw [if_pos hl]
  · intro hl
    unfold handle_message_input
    rw [hst]
    dsimp only
    rw [hstep]
    rw [if_neg (by simp)]
    rw [if_neg (Nat.not_lt.mpr hl)]
    rw [htf, hm]
    refine ⟨rfl, ?_⟩
    dsimp only
    rw [cancelExisting_next_id]
    exact lookupKey_setKey_self _ _ _

/-- Witness for C5 (amended) at the concrete state `s5`: the submission
with surrounding whitespace strips to `Drink water` and activates. -/
theorem C5_stripped_length_limit_witness :
    lookupKey 1 s5.user_states = some ⟨"5m", "awaiting_message"⟩ ∧
    (pyStrip "  Drink water  ").length ≤ 200 ∧
    lookupKey 1 ((handle_message_input 1 5 "  Drink water  " s5).2).active_reminders =
      some ⟨0, 5, 1, 300, 300, jobDataCustom "5m" "Drink water"⟩ := by
  have h := (C5_stripped_length_limit s5 1 5 "  Drink water  " "5m" 5
    ⟨"5m", "awaiting_message"⟩ (by decide) rfl rfl (by decide)).2 (by decide)
  exact ⟨by decide, by decide, h.2⟩

/-- C6 counterexample: the claim says cancelling with no active reminder
leaves all of the user's session state unchanged, but the `/cancel`
command unconditionally discards a pending SetupState first: at `s6`
user 1 has a pending awaiting-message state and no active reminder, and
after `/cancel` the report is the no-op reply while the setup state is
gone. -/
theorem C6_counterexample :
    lookupKey 1 s6.active_reminders = none ∧
    lookupKey 1 s6.user_states = some ⟨"5m", "awaiting_message"⟩ ∧
    (cancel 1 s6).1 = HOut.reply "❌ No active reminder found!" ∧
    (cancel 1 s6).2 ≠ s6 ∧
    lookupKey 1 ((cancel 1 s6).2).user_states = none := by
  decide

/-- C6 (amended): for a user with no active reminder both cancel paths
report that nothing was found, as a reply rather than a failure; the
cancel-reminder button leaves the state entirely unchanged, while the
`/cancel` command leaves everything unchanged except that it also clears
any pending setup state for the user. -/
theorem C6_nothing_to_cancel (u c : Int) (s : BotState)
    (h : lookupKey u s.active_reminders = none) :
    cancel u s = (HOut.reply "❌ No active reminder found!",
      { s with user_states := eraseKey u s.user_states }) ∧
    handle_reminder_selection u c "cancel_reminder" s =
      (HOut.reply "❌ No active reminder found!", s) := by
  constructor
  · unfold cancel
    dsimp only
    rw [h]
  · unfold handle_reminder_selection
    rw [if_pos rfl, h]

/-- Witness for C6 (amended) at the concrete state `s6`. -/
theorem C6_nothing_to_cancel_witness :
    lookupKey 1 s6.active_reminders = none ∧
    cancel 1 s6 = (HOut.reply "❌ No active reminder found!", sEmpty) ∧
    handle_reminder_selection 1 5 "cancel_reminder" s6 =
      (HOut.reply "❌ No active reminder found!", s6) := by
  have h := C6_nothing_to_cancel 1 5 s6 (by decide)
  exact ⟨by decide, h.1.trans (by decide), h.2⟩

/-- C7: free text submitted by a user who is not in the awaiting-message
phase (no setup state at all, or a setup state in another step) is
ignored without error and changes nothing. -/
theorem C7_text_ignored_outside_phase (u c : Int) (txt : String) (s : BotState)
    (h : lookupKey u s.user_states = none ∨
      ∃ st, lookupKey u s.user_states = some st ∧ st.step ≠ "awaiting_message") :
    handle_message_input u c txt s = (HOut.silent, s) := by
  unfold handle_message_input
  rcases h with h | ⟨st, hst, hne⟩
  · rw [h]
  · rw [hst]
    dsimp only
    rw [if_pos hne]

/-- s7: user 3 is in the random-flow `time_selected` step. -/
def s7 : BotState := ⟨[], [(3, ⟨"random", "time_selected"⟩)], [], [], 0⟩

/-- Witness for C7: user 3 is in the random-flow `time_selected` step,
and user 4 has no state at all; both texts are dropped. -/
theorem C7_text_ignored_witness :
    lookupKey 3 s7.user_states = some ⟨"random", "time_selected"⟩ ∧
    handle_message_input 3 4 "hello" s7 = (HOut.silent, s7) ∧
    handle_message_input 4 4 "hello" s7 = (HOut.silent, s7) :=
  ⟨by decide,
   C7_text_ignored_outside_phase 3 4 "hello" s7
     (Or.inr ⟨⟨"random", "time_selected"⟩, by decide, by decide⟩),
   C7_text_ignored_outside_phase 4 4 "hello" s7 (Or.inl (by decide))⟩

/-- C8: every activation, on either path, creates its repeating job with
`interval` and `first` both equal to the chosen number of minutes times
60 seconds, so the k-th firing is at `(k + 1)` full intervals and the
first firing only after one full interval has elapsed, never at
activation time. -/
theorem C8_first_fire_after_full_interval (s : BotState) (u c : Int) (tf : String)
    (m : Nat) (hm : lookupKey tf TIME_FRAMES = some m) :
    (((setup_random_reminder u c tf s).2).jobs =
      { id := s.next_id, chat_id := c, user_id := u
      , interval := m * 60, first := m * 60, data := jobDataRandom tf } :: s.jobs) ∧
    (∀ txt st, lookupKey u s.user_states = some st → st.step = "awaiting_message" →
      st.time_frame = tf → (pyStrip txt).length ≤ 200 →
      ((handle_message_input u c txt s).2).jobs =
        { id := s.next_id, chat_id := c, user_id := u
        , interval := m * 60, first := m * 60
        , data := jobDataCustom tf (pyStrip txt) } :: s.jobs) ∧
    (∀ j : Job, j.interval = m * 60 → j.first = m * 60 →
      fireTime j 0 = m * 60 ∧ ∀ k, fireTime j k = (k + 1) * (m * 60)) := by
  refine ⟨?_, ?_, ?_⟩
  · unfold setup_random_reminder
    rw [hm]
    dsimp only
    rw [cancelExisting_next_id, cancelExisting_jobs]
  · intro txt st hst hstep htf hlen
    unfold handle_message_input
    rw [hst]
    dsimp only
    rw [hstep]
    rw [if_neg (by simp)]
    rw [if_neg (Nat.not_lt.mpr hlen)]
    rw [htf, hm]
    dsimp only
    rw [cancelExisting_next_id, cancelExisting_jobs]
  · intro j hi hf
    unfold fireTime
    rw [hi, hf]
    constructor
    · omega
    · intro k
      ring

/-- Witness for C8: user 2 in chat 6 activates hourly random reminders
from the empty state; the created job waits 3600 seconds before its
first firing. -/
theorem C8_first_fire_witness :
    lookupKey "1h" TIME_FRAMES = some 60 ∧
    ((setup_random_reminder 2 6 "1h" sEmpty).2).jobs = [jRand] ∧
    fireTime jRand 0 = 3600 := by
  have h := C8_first_fire_after_full_interval sEmpty 2 6 "1h" 60 (by decide)
  exact ⟨by decide, h.1, (h.2.2 jRand rfl rfl).1⟩

/-- C9: in the concrete scenario user 1 selects the `5m` interval and
sends `Drink water`, after which the status query reports an active
custom reminder with interval `5m` and the stored text; in general the
status query reports no active reminder exactly when the user has no
entry, and otherwise reports the stored interval and, for custom
reminders, the stored text. -/
theorem C9_status_query :
    (status 1 s9b = StatusOut.customActive "5m" "Drink water" ∧
      status 1 sEmpty = StatusOut.noActive) ∧
    (∀ (s : BotState) (u : Int), lookupKey u s.active_reminders = none →
      status u s = StatusOut.noActive) ∧
    (∀ (s : BotState) (u : Int) (j : Job) (tf msg : String),
      lookupKey u s.active_reminders = some j → j.data = jobDataCustom tf msg →
      status u s = StatusOut.customActive tf msg) ∧
    (∀ (s : BotState) (u : Int) (j : Job) (tf : String),
      lookupKey u s.active_reminders = some j → j.data = jobDataRandom tf →
      status u s = StatusOut.randomActive tf) := by
  refine ⟨by decide, ?_, ?_, ?_⟩
  · intro s u h
    unfold status
    rw [h]
  · intro s u j tf msg h hd
    unfold status
    rw [h]
    dsimp only
    rw [hd, dictGet_custom_time_frame, dictGet_custom_type]
    dsimp only [Option.getD]
    rw [if_pos rfl, dictGet_custom_message]
    rfl
  · intro s u j tf h hd
    unfold status
    rw [h]
    dsimp only
    rw [hd, dictGet_random_time_frame, dictGet_random_type]
    dsimp only [Option.getD]
    rw [if_neg (by decide)]
    rfl

/-- Witness for C9's general clauses at the concrete states. -/
theorem C9_status_query_witness :
    lookupKey 3 s9b.active_reminders = none ∧
    status 3 s9b = StatusOut.noActive ∧
    lookupKey 2 sRandExample.active_reminders = some jRand ∧
    status 2 sRandExample = StatusOut.randomActive "1h" :=
  ⟨by decide,
   C9_status_query.2.1 s9b 3 (by decide),
   by decide,
   C9_status_query.2.2.2 sRandExample 2 jRand "1h" (by decide) rfl⟩

/-- C10: in the awaiting-message phase the submitted text is stripped of
leading and trailing whitespace before the length check and before
storage; there is no minimum length, so an all-whitespace submission
strips to the empty string and still activates a reminder storing the
empty custom text. -/
theorem C10_strip_no_minimum (s : BotState) (u c : Int) (txt : String) (st : UserState)
    (m : Nat)
    (hst : lookupKey u s.user_states = some st)
    (hstep : st.step = "awaiting_message")
    (hm : lookupKey st.time_frame TIME_FRAMES = some m) :
    ((pyStrip txt).length ≤ 200 →
      lookupKey u ((handle_message_input u c txt s).2).active_reminders =
        some { id := s.next_id, chat_id := c, user_id := u
             , interval := m * 60, first := m * 60
             , data := jobDataCustom st.time_frame (pyStrip txt) } ∧
      lookupKey u ((handle_message_input u c txt s).2).user_states = none) ∧
    ((pyStrip txt).length > 200 →
      handle_message_input u c txt s = (HOut.reply tooLongText, s)) ∧
    (txt.data.all Char.isWhitespace = true → pyStrip txt = "") := by
  refine ⟨?_, ?_, pyStrip_all_whitespace txt⟩
  · intro hl
    unfold handle_message_input
    rw [hst]
    dsimp only
    rw [hstep]
    rw [if_neg (by simp)]
    rw [if_neg (Nat.not_lt.mpr hl)]
    rw [hm]
    dsimp only
    constructor
    · rw [cancelExisting_next_id]
      exact lookupKey_setKey_self _ _ _
    · rw [cancelExisting_user_states]
      exact lookupKey_eraseKey_self _ _
  · intro hl
    unfold handle_message_input
    rw [hst]
    dsimp only
    rw [hstep]
    rw [if_neg (by simp)]
    rw [if_pos hl]

/-- Witness for C10 at `s5`: an all-whitespace submission activates a
reminder whose stored custom text is empty. -/
theorem C10_strip_no_minimum_witness :
    lookupKey 1 s5.user_states = some ⟨"5m", "awaiting_message"⟩ ∧
    pyStrip "   " = "" ∧
    lookupKey 1 ((handle_message_input 1 5 "   " s5).2).active_reminders =
      some ⟨0, 5, 1, 300, 300, jobDataCustom "5m" ""⟩ ∧
    lookupKey 1 ((handle_message_input 1 5 "   " s5).2).user_states = none := by
  have h := C10_strip_no_minimum s5 1 5 "   " ⟨"5m", "awaiting_message"⟩ 5
    (by decide) rfl (by decide)
  exact ⟨by decide, h.2.2 (by decide), (h.1 (by decide)).1, (h.1 (by decide)).2⟩
